import Mathlib

/-!
Verification of the Bluetooth device acquisition and connection manager
(`package bluetooth`, `Client`): the match-predicate construction inside
`SearchAndConnect`, the cache scan (`tryCacheConnect`), the live discovery
fallback (`tryDiscoveryConnect`), and the connection retry loop
(`tryConnectForever`), shallowly embedded as pure Lean functions.

External collaborators (the BlueZ adapter: `adapter.GetDevices`,
`api.Discover`, `device.NewDevice1`, `Device1.Connect`) are modelled as
parameters: a `Registry` record of oracles and a per-attempt connect
oracle.  Go errors are modelled by the inductive `BtError`, with
`fmt.Errorf("...: %w", err)` wrapping as the `wrap` constructor and
`errors.Is` as chain-unwrapping comparison against a sentinel.
-/

namespace Bluetooth

/-- Errors of the bluetooth client.  `btDeviceNotFound` models the package
sentinel `ErrBtDeviceNotFound`; `external` models opaque errors produced by
the external adapter/registry stack (which never wrap the package's own
sentinel); `wrap msg e` models `fmt.Errorf(msg + ": %w", e)`;
`invalidAddress` models the failure of the address normalizer;
`regexNotCompilable` models the error returned by the regular-expression
compiler on an unparsable pattern. -/
inductive BtError where
  | btDeviceNotFound : BtError
  | missingCriterion : BtError
  | invalidAddress (input : String) : BtError
  | regexNotCompilable (pattern : String) : BtError
  | external (code : Nat) : BtError
  | wrap (msg : String) (inner : BtError) : BtError
deriving DecidableEq, Repr

/-- Model of Go `errors.Is e target`: `e` matches if it equals the target or
some error in its wrapped chain does. -/
def errorsIs : BtError → BtError → Bool
  | .wrap m inner, target => (BtError.wrap m inner == target) || errorsIs inner target
  | e, target => e == target

/-- A character is a hexadecimal digit. -/
def isHexChar (c : Char) : Bool :=
  c.isDigit || (97 ≤ c.toNat && c.toNat ≤ 102) || (65 ≤ c.toNat && c.toNat ≤ 70)

/-- Drop the customary MAC separators (colon and dash) from a string. -/
def stripSeps (s : String) : List Char :=
  s.toList.filter (fun c => !(c == ':' || c == '-'))

/-- Group a flat list of hex digits into uppercase two-character octets. -/
def toOctets : List Char → List String
  | a :: b :: rest => String.mk [a.toUpper, b.toUpper] :: toOctets rest
  | _ => []

/-- Modelled from the spec: the address normalizer `util.CleanMacAddress`
(package `ledfx/integrations/bluetooth/util`, whose source is not among the
given files).  Per the spec, an exact address "is first normalized
(canonical separator/case form); malformed addresses fail" — modelled as:
strip `:`/`-` separators, require exactly twelve hexadecimal digits, and
emit the canonical uppercase colon-separated form (the BlueZ address
format); anything else is rejected. -/
def CleanMacAddress (s : String) : Except BtError String :=
  let cs := stripSeps s
  if cs.length == 12 && cs.all isHexChar then
    .ok (String.intercalate ":" (toOctets cs))
  else
    .error (.invalidAddress s)

/-- Modelled from the spec: the search criteria record `SearchTargetConfig`
(its declaration is not among the given files; field names are taken from
their uses in `SearchAndConnect` and the test).  `DeviceAddress` and
`DeviceRegex` are optional strings (empty = unset); `ConnectRetryCoolDown`
is the retry cooldown, modelled in abstract ticks. -/
structure SearchTargetConfig where
  DeviceAddress : String := ""
  DeviceRegex : String := ""
  ConnectRetryCoolDown : Nat := 0
deriving DecidableEq, Repr

/-- A device handle as seen by the client: its MAC address string and its
display name (`Properties.Address` / `Properties.Name`). -/
structure Device where
  address : String
  name : String
deriving DecidableEq, Repr

/-- A discovery event (`adapter.DeviceDiscovered`): either a removal notice
or a device-present notice carrying an opaque object path. -/
inductive BtEvent where
  | removed (path : Nat)
  | present (path : Nat)
deriving DecidableEq, Repr

/-- The external device registry, modelled as oracles: `getDevices` is the
cache snapshot (`adapter.GetDevices`), `discover` is the discovery-session
start (`api.Discover`) yielding the eventual finite event stream, and
`newDevice1` materializes a handle from an event's object path
(`device.NewDevice1`). -/
structure Registry where
  getDevices : Except BtError (List Device)
  discover : Except BtError (List BtEvent)
  newDevice1 : Nat → Except BtError Device

/-- The predicate construction at the head of `SearchAndConnect`: the
`switch` on the config.  If `DeviceAddress` is nonempty it is cleaned and
the predicate compares the candidate MAC against the cleaned target;
otherwise, if `DeviceRegex` is empty the call fails with the
missing-criterion error; otherwise the pattern is compiled (`compile`
stands for `regexp.Compile`: `none` = compile error) and the predicate
matches the candidate name.  Returns the predicate together with the
(possibly updated) config, mirroring the in-place update of
`config.DeviceAddress`. -/
def buildMatchFunc (compile : String → Option (String → Bool))
    (config : SearchTargetConfig) :
    Except BtError ((String → String → Bool) × SearchTargetConfig) :=
  if config.DeviceAddress.length > 0 then
    match CleanMacAddress config.DeviceAddress with
    | .error e => .error (.wrap "error cleaning MAC address" e)
    | .ok cleaned =>
        .ok (fun mac _ => mac == cleaned, { config with DeviceAddress := cleaned })
  else if config.DeviceRegex.length == 0 then
    .error .missingCriterion
  else
    match compile config.DeviceRegex with
    | none => .error (.wrap "error compiling regular expression"
        (.regexNotCompilable config.DeviceRegex))
    | some rxp => .ok (fun _ name => rxp name, config)

/-- Apply the predicate produced by `buildMatchFunc` to a candidate
(address, name) pair; `none` when construction failed. -/
def applyPred (r : Except BtError ((String → String → Bool) × SearchTargetConfig))
    (addr name : String) : Option Bool :=
  match r with
  | .ok (f, _) => some (f addr name)
  | .error _ => none

/-- The cache-scan loop body of `tryCacheConnect`: walk the device list in
order, stop at the first device satisfying the predicate (`break`), and
record, in order, every device the predicate was evaluated on.  Returns
(selected device, evaluated devices). -/
def scanCacheTrace (f : String → String → Bool) :
    List Device → Option Device × List Device
  | [] => (none, [])
  | d :: rest =>
    if f d.address d.name then (some d, [d])
    else
      let r := scanCacheTrace f rest
      (r.1, d :: r.2)

/-- `Client.tryCacheConnect`: list the cached devices (a failure is wrapped
and returned), scan them with the predicate; the first match is the
selected candidate (`.ok`), exhaustion yields `ErrBtDeviceNotFound`. -/
def tryCacheConnect (f : String → String → Bool) (reg : Registry) :
    Except BtError Device :=
  match reg.getDevices with
  | .error e => .error (.wrap "error getting device cache list" e)
  | .ok devices =>
    match (scanCacheTrace f devices).1 with
    | some d => .ok d
    | none => .error .btDeviceNotFound

/-- The discovery-event loop of `tryDiscoveryConnect`: consume events in
arrival order; a `removed` event is skipped; for a `present` event the
handle is materialized via `newDevice1`, a creation failure is logged and
the event skipped; the first handle satisfying the predicate is selected
(`break`); a closed stream with no match selects nothing. -/
def scanDiscovery (f : String → String → Bool)
    (newDev : Nat → Except BtError Device) : List BtEvent → Option Device
  | [] => none
  | .removed _ :: rest => scanDiscovery f newDev rest
  | .present p :: rest =>
    match newDev p with
    | .error _ => scanDiscovery f newDev rest
    | .ok d => if f d.address d.name then some d else scanDiscovery f newDev rest

/-- Observable outcome of `Client.tryDiscoveryConnect`: whether the
discovery session was started, how many times its cancellation handle was
invoked, the selected candidate, the error the function returned (`none` on
success; it is only logged by the caller goroutine), and whether a retry
loop was launched. -/
structure DiscoveryOutcome where
  started : Bool
  cancelCalls : Nat
  selected : Option Device
  err : Option BtError
  retryLaunched : Bool
deriving Repr

/-- `Client.tryDiscoveryConnect`: start discovery (a start failure is
wrapped and returned, with the session never started); on success the
cancellation handle is deferred, so it runs exactly once on every exit path
of the event loop; the first matching handle becomes the candidate and the
retry loop is launched; a closed stream with no match yields
`ErrBtDeviceNotFound`. -/
def tryDiscoveryConnect (f : String → String → Bool) (reg : Registry) :
    DiscoveryOutcome :=
  match reg.discover with
  | .error e =>
      { started := false, cancelCalls := 0, selected := none
        err := some (.wrap "error starting discovery" e), retryLaunched := false }
  | .ok events =>
    match scanDiscovery f reg.newDevice1 events with
    | some d =>
        { started := true, cancelCalls := 1, selected := some d
          err := none, retryLaunched := true }
    | none =>
        { started := true, cancelCalls := 1, selected := none
          err := some .btDeviceNotFound, retryLaunched := false }

/-- The `for err := cl.dev.Connect(); err != nil; { ... }` loop condition
and body of `tryConnectForever`: the loop has no post statement and its
body (log, sleep) never re-assigns `err`, so the condition re-examines the
same value each cycle.  `errFailed` is that fixed value (`true` = the one
`Connect()` call failed); `fuel` bounds the number of body iterations we
run; the result is `true` when the loop has exited within `fuel` cycles. -/
def connectLoopExits (errFailed : Bool) : Nat → Bool
  | 0 => !errFailed
  | n + 1 => if errFailed then connectLoopExits errFailed n else true

/-- Observable outcome of `Client.tryConnectForever`: how many times
`dev.Connect()` was invoked and how many completion signals were sent on
`cl.done`. -/
structure RetryOutcome where
  connectCalls : Nat
  doneSignals : Nat
deriving DecidableEq, Repr

/-- `Client.tryConnectForever`: `connectOk k` is the external oracle giving
the result the device would return for the k-th `Connect()` invocation
(`true` = success).  The loop init calls `Connect()` once (the only call
site); the loop then spins on the unchanged error.  The completion signal
is sent only after the loop exits. -/
def tryConnectForever (connectOk : Nat → Bool) (fuel : Nat) : RetryOutcome :=
  let errFailed := !connectOk 0
  if connectLoopExits errFailed fuel then
    { connectCalls := 1, doneSignals := 1 }
  else
    { connectCalls := 1, doneSignals := 0 }

/-- Observable outcome of `Client.SearchAndConnect`: the error it returns
to its caller (`none` = nil), whether a discovery session was started, how
many times the discovery cancellation handle ran, the final candidate slot
(`cl.dev`), how many retry loops were launched, and the error (if any) the
background goroutine logged. -/
structure SACResult where
  syncErr : Option BtError
  discoveryStarted : Bool
  cancelCalls : Nat
  selected : Option Device
  retryLoops : Nat
  asyncLoggedErr : Option BtError
deriving Repr

/-- `Client.SearchAndConnect`: build the predicate (validation errors are
returned at once); run the cache scan; on a cache hit the retry loop is
launched and nil is returned; when the cache scan fails with exactly
`ErrBtDeviceNotFound` (checked via `errors.Is`), the discovery fallback is
dispatched on a goroutine — its error is only logged — and nil is returned;
any other cache-scan error is wrapped and returned. -/
def SearchAndConnect (compile : String → Option (String → Bool))
    (reg : Registry) (config : SearchTargetConfig) : SACResult :=
  match buildMatchFunc compile config with
  | .error e =>
      { syncErr := some e, discoveryStarted := false, cancelCalls := 0
        selected := none, retryLoops := 0, asyncLoggedErr := none }
  | .ok (f, _) =>
    match tryCacheConnect f reg with
    | .ok d =>
        { syncErr := none, discoveryStarted := false, cancelCalls := 0
          selected := some d, retryLoops := 1, asyncLoggedErr := none }
    | .error e =>
      if errorsIs e .btDeviceNotFound then
        let o := tryDiscoveryConnect f reg
        { syncErr := none, discoveryStarted := o.started
          cancelCalls := o.cancelCalls, selected := o.selected
          retryLoops := if o.retryLaunched then 1 else 0
          asyncLoggedErr := o.err }
      else
        { syncErr := some (.wrap "error attempting connection through device cache" e)
          discoveryStarted := false, cancelCalls := 0, selected := none
          retryLoops := 0, asyncLoggedErr := none }

/-- Observable outcome of one full run of the manager: the
`SearchAndConnect` result together with the connect attempts and completion
signals of the retry loop it launched (none when no loop was launched). -/
structure SystemOutcome where
  sac : SACResult
  connectCalls : Nat
  doneSignals : Nat
deriving Repr

/-- One full run of the manager on one `SearchAndConnect` call: when a
retry loop was launched against the selected candidate, run it with the
candidate's connect oracle. -/
def runSystem (compile : String → Option (String → Bool)) (reg : Registry)
    (config : SearchTargetConfig) (connectOk : Nat → Bool) (fuel : Nat) :
    SystemOutcome :=
  let r := SearchAndConnect compile reg config
  if r.retryLoops == 0 then
    { sac := r, connectCalls := 0, doneSignals := 0 }
  else
    let t := tryConnectForever connectOk fuel
    { sac := r, connectCalls := t.connectCalls, doneSignals := t.doneSignals }

end Bluetooth

/-! Concrete fixtures used by witnesses and counterexamples. -/

namespace Bluetooth

/-- A pattern compiler oracle that fails on every pattern. -/
def compileNone : String → Option (String → Bool) := fun _ => none

/-- A pattern compiler oracle that compiles every nonempty pattern to an
exact-name matcher and fails on the empty pattern. -/
def compileExact : String → Option (String → Bool) :=
  fun p => if p == "" then none else some (fun name => name == p)

/-- Fixture: an exact-address configuration (already in canonical form). -/
def cfgAddr : SearchTargetConfig := { DeviceAddress := "AA:BB:CC:DD:EE:FF" }

/-- Fixture: a name-pattern configuration. -/
def cfgName : SearchTargetConfig := { DeviceRegex := "beta" }

/-- Fixture devices. -/
def devAlpha : Device := { address := "AA:BB:CC:DD:EE:01", name := "alpha" }

/-- Fixture devices. -/
def devBeta : Device := { address := "AA:BB:CC:DD:EE:02", name := "beta" }

/-- Fixture devices. -/
def devGamma : Device := { address := "AA:BB:CC:DD:EE:03", name := "gamma" }

/-- Fixture: a registry with an empty cache whose discovery session fails
to start. -/
def regDiscFail : Registry :=
  { getDevices := .ok [], discover := .error (.external 7)
    newDevice1 := fun _ => .error (.external 1) }

/-- Fixture: a registry whose cache listing fails with an external error. -/
def regListFail : Registry :=
  { getDevices := .error (.external 9), discover := .ok []
    newDevice1 := fun _ => .error (.external 1) }

/-- Fixture: a registry whose cache holds the three fixture devices. -/
def regThree : Registry :=
  { getDevices := .ok [devAlpha, devBeta, devGamma], discover := .ok []
    newDevice1 := fun p =>
      if p == 0 then .ok devAlpha else if p == 1 then .ok devBeta
      else if p == 2 then .ok devGamma else .error (.external 2) }

/-- Fixture: the exact-name predicate for "beta". -/
def matchBeta : String → String → Bool := fun _ name => name == "beta"

end Bluetooth

/-! Theorems settling the claims. -/

namespace Bluetooth

/-- Helper: the retry-loop condition never becomes true once the single
`Connect()` call has failed (the body does not change `err`). -/
theorem connectLoopExits_eq (b : Bool) (n : Nat) : connectLoopExits b n = !b := by
  induction n with
  | zero => rfl
  | succ n ih => cases b <;> simp [connectLoopExits, ih]

/-- Helper: `tryConnectForever` performs exactly one connect call; it
signals completion exactly when that single call succeeded. -/
theorem tryConnectForever_eq (connectOk : Nat → Bool) (fuel : Nat) :
    tryConnectForever connectOk fuel =
      if connectOk 0 then { connectCalls := 1, doneSignals := 1 }
      else { connectCalls := 1, doneSignals := 0 } := by
  unfold tryConnectForever
  cases h : connectOk 0 <;> simp [connectLoopExits_eq, h]

/-- C1: the claim says that for a candidate whose connect fails `n` times
and then succeeds the loop performs `n+1` attempts and then signals
completion.  The code's `for err := cl.dev.Connect(); err != nil; { ... }`
loop has no post statement and its body never re-assigns `err`, so
`Connect()` is invoked exactly once; with an oracle that fails on attempt 0
and would succeed on attempt 1 (`n = 1`), the loop — for every amount of
fuel — has made exactly one connect call and sent no completion signal,
contradicting the claimed two attempts and one signal. -/
theorem tryConnectForever_single_attempt_no_retry :
    (∀ connectOk : Nat → Bool, ∀ fuel : Nat,
      (tryConnectForever connectOk fuel).connectCalls = 1) ∧
    (∀ fuel : Nat, tryConnectForever (fun k => decide (1 ≤ k)) fuel =
      { connectCalls := 1, doneSignals := 0 }) := by
  constructor
  · intro connectOk fuel
    rw [tryConnectForever_eq]
    cases h : connectOk 0 <;> simp [h]
  · intro fuel
    rw [tryConnectForever_eq]
    simp

/-- C2 counterexample: with an empty device cache and a registry whose
discovery-session start fails, `SearchAndConnect` returns nil (no error)
synchronously — not the discovery-start failure the claim promises; the
failure is only logged by the background goroutine. -/
theorem searchAndConnect_discStartFail_cex :
    (SearchAndConnect compileNone regDiscFail cfgAddr).syncErr = none ∧
    (SearchAndConnect compileNone regDiscFail cfgAddr).asyncLoggedErr =
      some (.wrap "error starting discovery" (.external 7)) ∧
    (SearchAndConnect compileNone regDiscFail cfgAddr).retryLoops = 0 :=
  ⟨rfl, rfl, rfl⟩

/-- C2 amended: when the cache scan finds no match and the discovery
session fails to start, `SearchAndConnect` returns nil synchronously; the
wrapped discovery-start failure is only logged asynchronously by the
background goroutine, no discovery session runs, and no retry loop is
launched. -/
theorem searchAndConnect_discStartFail_async
    (compile : String → Option (String → Bool)) (reg : Registry)
    (cfg : SearchTargetConfig) (f : String → String → Bool)
    (cfg' : SearchTargetConfig) (e : BtError)
    (hb : buildMatchFunc compile cfg = .ok (f, cfg'))
    (hc : tryCacheConnect f reg = .error .btDeviceNotFound)
    (hd : reg.discover = .error e) :
    (SearchAndConnect compile reg cfg).syncErr = none ∧
    (SearchAndConnect compile reg cfg).retryLoops = 0 ∧
    (SearchAndConnect compile reg cfg).discoveryStarted = false ∧
    (SearchAndConnect compile reg cfg).asyncLoggedErr =
      some (.wrap "error starting discovery" e) := by
  unfold SearchAndConnect
  rw [hb]
  dsimp only
  rw [hc]
  simp [errorsIs, tryDiscoveryConnect, hd]

/-- Witness for C2's amended theorem at the concrete fixture registry. -/
theorem searchAndConnect_discStartFail_async_witness :
    (SearchAndConnect compileNone regDiscFail cfgAddr).syncErr = none ∧
    (SearchAndConnect compileNone regDiscFail cfgAddr).retryLoops = 0 ∧
    (SearchAndConnect compileNone regDiscFail cfgAddr).discoveryStarted = false ∧
    (SearchAndConnect compileNone regDiscFail cfgAddr).asyncLoggedErr =
      some (.wrap "error starting discovery" (.external 7)) :=
  searchAndConnect_discStartFail_async compileNone regDiscFail cfgAddr
    (fun mac _ => mac == "AA:BB:CC:DD:EE:FF") cfgAddr (.external 7)
    rfl rfl rfl

/-- C3: per manager run (one `SearchAndConnect` call, its documented
contract), at most one retry loop is ever launched; the completion signal
is sent at most once, and exactly once if and only if some connect attempt
actually performed against the selected candidate succeeds. -/
theorem manager_single_retryLoop_single_signal
    (compile : String → Option (String → Bool)) (reg : Registry)
    (cfg : SearchTargetConfig) (connectOk : Nat → Bool) (fuel : Nat) :
    (SearchAndConnect compile reg cfg).retryLoops ≤ 1 ∧
    (runSystem compile reg cfg connectOk fuel).doneSignals ≤ 1 ∧
    ((runSystem compile reg cfg connectOk fuel).doneSignals = 1 ↔
      ∃ k, k < (runSystem compile reg cfg connectOk fuel).connectCalls ∧
        connectOk k = true) := by
  refine ⟨?_, ?_⟩
  · unfold SearchAndConnect
    split
    · simp
    · split
      · simp
      · dsimp only
        split
        · split <;> simp
        · simp
  · unfold runSystem
    dsimp only
    split
    · simp
    · rw [tryConnectForever_eq]
      cases h : connectOk 0 with
      | false =>
        simp only [if_neg (by simp [h] : ¬ connectOk 0 = true)]
        refine ⟨by simp, ?_, ?_⟩
        · intro h1; simp at h1
        · rintro ⟨k, hk, hok⟩
          have hk1 : k < 1 := hk
          have hk0 : k = 0 := by omega
          rw [hk0] at hok
          rw [h] at hok
          exact absurd hok (by simp)
      | true =>
        simp only [if_pos h]
        exact ⟨le_refl 1, fun _ => ⟨0, by norm_num, h⟩, fun _ => rfl⟩

/-- Witness for C3 at a concrete run: the cache holds a matching device and
the first connect attempt succeeds. -/
theorem manager_single_retryLoop_single_signal_witness :
    (SearchAndConnect compileExact regThree cfgName).retryLoops ≤ 1 ∧
    (runSystem compileExact regThree cfgName (fun _ => true) 3).doneSignals ≤ 1 ∧
    ((runSystem compileExact regThree cfgName (fun _ => true) 3).doneSignals = 1 ↔
      ∃ k, k < (runSystem compileExact regThree cfgName (fun _ => true) 3).connectCalls ∧
        (fun _ : Nat => true) k = true) :=
  manager_single_retryLoop_single_signal compileExact regThree cfgName
    (fun _ => true) 3

/-- C4 counterexample: for the valid exact-address configuration targeting
"AA:BB:CC:DD:EE:FF", the candidate address "aa:bb:cc:dd:ee:ff" is a
differently-cased form of the same address — it normalizes to the same
canonical form as the target — yet the built predicate rejects it, because
the code compares the candidate's raw address against the cleaned target
without normalizing the candidate. -/
theorem matchFunc_candidate_not_normalized_cex :
    CleanMacAddress "aa:bb:cc:dd:ee:ff" = .ok "AA:BB:CC:DD:EE:FF" ∧
    CleanMacAddress "AA:BB:CC:DD:EE:FF" = .ok "AA:BB:CC:DD:EE:FF" ∧
    applyPred (buildMatchFunc compileNone cfgAddr) "aa:bb:cc:dd:ee:ff" "n" =
      some false :=
  ⟨rfl, rfl, rfl⟩

/-- C4 amended: for every valid exact-address configuration, the built
predicate returns true on a candidate (address, name) pair iff the
candidate's address, taken verbatim (not normalized), equals the normalized
target address; the candidate's name is ignored. -/
theorem matchFunc_address_literal_equality
    (compile : String → Option (String → Bool)) (cfg : SearchTargetConfig)
    (cleaned addr name : String) (h1 : cfg.DeviceAddress ≠ "")
    (hc : CleanMacAddress cfg.DeviceAddress = .ok cleaned) :
    applyPred (buildMatchFunc compile cfg) addr name = some (addr == cleaned) := by
  unfold buildMatchFunc applyPred
  have hlen : cfg.DeviceAddress.length > 0 := by
    cases hs : cfg.DeviceAddress with
    | mk l =>
      cases l with
      | nil => exact (h1 (by rw [hs])).elim
      | cons a as => simp [String.length]
  simp [hlen, hc]

/-- Witness for C4's amended theorem: the matching and the rejected
candidate at the fixture configuration. -/
theorem matchFunc_address_literal_equality_witness :
    applyPred (buildMatchFunc compileNone cfgAddr) "AA:BB:CC:DD:EE:FF" "n" =
      some ("AA:BB:CC:DD:EE:FF" == "AA:BB:CC:DD:EE:FF") :=
  matchFunc_address_literal_equality compileNone cfgAddr "AA:BB:CC:DD:EE:FF"
    "AA:BB:CC:DD:EE:FF" "n" (by simp [cfgAddr]) rfl

/-- C5: a configuration with both criteria unset fails with the
missing-criterion error; a configuration with both criteria set is accepted
and the exact-address rule takes precedence — the built predicate is the
address-equality predicate, for every pattern compiler and every pattern
text. -/
theorem searchConfig_criteria_validation :
    (∀ (compile : String → Option (String → Bool)) (cfg : SearchTargetConfig),
      cfg.DeviceAddress = "" → cfg.DeviceRegex = "" →
      buildMatchFunc compile cfg = .error .missingCriterion) ∧
    (∀ (compile : String → Option (String → Bool)) (cfg : SearchTargetConfig)
      (cleaned addr name : String),
      cfg.DeviceAddress ≠ "" → cfg.DeviceRegex ≠ "" →
      CleanMacAddress cfg.DeviceAddress = .ok cleaned →
      applyPred (buildMatchFunc compile cfg) addr name = some (addr == cleaned)) := by
  constructor
  · intro compile cfg h1 h2
    unfold buildMatchFunc
    simp [h1, h2]
  · intro compile cfg cleaned addr name h1 _ hc
    exact matchFunc_address_literal_equality compile cfg cleaned addr name h1 hc

/-- Witness for C5: the missing-criterion rejection on the empty
configuration, and address precedence on a configuration carrying both an
address and a pattern. -/
theorem searchConfig_criteria_validation_witness :
    buildMatchFunc compileExact {} = .error .missingCriterion ∧
    applyPred
      (buildMatchFunc compileExact
        { DeviceAddress := "AA:BB:CC:DD:EE:FF", DeviceRegex := "beta" })
      "AA:BB:CC:DD:EE:FF" "gamma" = some true :=
  ⟨searchConfig_criteria_validation.1 compileExact {} rfl rfl, by
    have h := searchConfig_criteria_validation.2 compileExact
      { DeviceAddress := "AA:BB:CC:DD:EE:FF", DeviceRegex := "beta" }
      "AA:BB:CC:DD:EE:FF" "AA:BB:CC:DD:EE:FF" "gamma" (by simp) (by simp) rfl
    simpa using h⟩

/-- C6: the cache scan evaluates the predicate in enumeration order and
selects the first matching device, evaluating nothing past it; with three
devices of which the second matches, the second is selected and the third
is never evaluated; on exhaustion with no match, `tryCacheConnect` returns
`ErrBtDeviceNotFound`. -/
theorem cacheScan_first_match_policy :
    (∀ (f : String → String → Bool) (pre : List Device) (d : Device)
      (post : List Device),
      (∀ d' ∈ pre, f d'.address d'.name = false) → f d.address d.name = true →
      scanCacheTrace f (pre ++ d :: post) = (some d, pre ++ [d])) ∧
    (∀ (f : String → String → Bool) (reg : Registry) (devs : List Device),
      reg.getDevices = .ok devs → (∀ d' ∈ devs, f d'.address d'.name = false) →
      tryCacheConnect f reg = .error .btDeviceNotFound) ∧
    (∀ (f : String → String → Bool) (d1 d2 d3 : Device),
      f d1.address d1.name = false → f d2.address d2.name = true →
      scanCacheTrace f [d1, d2, d3] = (some d2, [d1, d2])) := by
  have first : ∀ (f : String → String → Bool) (pre : List Device) (d : Device)
      (post : List Device),
      (∀ d' ∈ pre, f d'.address d'.name = false) → f d.address d.name = true →
      scanCacheTrace f (pre ++ d :: post) = (some d, pre ++ [d]) := by
    intro f pre d post hpre hd
    induction pre with
    | nil => simp [scanCacheTrace, hd]
    | cons a as ih =>
      have ha : f a.address a.name = false := hpre a (by simp)
      have ih' := ih (fun d' hm => hpre d' (by simp [hm]))
      simp [scanCacheTrace, ha, ih']
  refine ⟨first, ?_, ?_⟩
  · intro f reg devs hg hall
    have key : ∀ l : List Device, (∀ d ∈ l, f d.address d.name = false) →
        (scanCacheTrace f l).1 = none := by
      intro l
      induction l with
      | nil => intro _; simp [scanCacheTrace]
      | cons a as ih =>
        intro hl
        have ha : f a.address a.name = false := hl a (by simp)
        simp [scanCacheTrace, ha, ih (fun d hm => hl d (by simp [hm]))]
    unfold tryCacheConnect
    rw [hg]
    simp [key devs hall]
  · intro f d1 d2 d3 h1 h2
    have := first f [d1] d2 [d3] (by intro d' hm; simp at hm; rw [hm]; exact h1) h2
    simpa using this

/-- Witness for C6 at the three fixture devices with the name predicate
matching the second. -/
theorem cacheScan_first_match_policy_witness :
    scanCacheTrace matchBeta [devAlpha, devBeta, devGamma] =
      (some devBeta, [devAlpha, devBeta]) ∧
    tryCacheConnect (fun _ _ => false) regThree = .error .btDeviceNotFound :=
  ⟨cacheScan_first_match_policy.2.2 matchBeta devAlpha devBeta devGamma rfl rfl,
   cacheScan_first_match_policy.2.1 (fun _ _ => false) regThree
     [devAlpha, devBeta, devGamma] rfl (fun _ _ => rfl)⟩

/-- C7: the discovery event loop processes events in arrival order:
"removed" events are ignored; a "present" event whose handle creation fails
is skipped non-fatally and the scan continues; the first handle satisfying
the predicate is selected; a non-matching handle is passed over; a stream
that ends with no match selects nothing. -/
theorem discoveryScan_event_processing :
    (∀ (f : String → String → Bool) (mk : Nat → Except BtError Device)
      (p : Nat) (rest : List BtEvent),
      scanDiscovery f mk (.removed p :: rest) = scanDiscovery f mk rest) ∧
    (∀ (f : String → String → Bool) (mk : Nat → Except BtError Device)
      (p : Nat) (e : BtError) (rest : List BtEvent), mk p = .error e →
      scanDiscovery f mk (.present p :: rest) = scanDiscovery f mk rest) ∧
    (∀ (f : String → String → Bool) (mk : Nat → Except BtError Device)
      (p : Nat) (d : Device) (rest : List BtEvent), mk p = .ok d →
      f d.address d.name = true →
      scanDiscovery f mk (.present p :: rest) = some d) ∧
    (∀ (f : String → String → Bool) (mk : Nat → Except BtError Device)
      (p : Nat) (d : Device) (rest : List BtEvent), mk p = .ok d →
      f d.address d.name = false →
      scanDiscovery f mk (.present p :: rest) = scanDiscovery f mk rest) ∧
    (∀ (f : String → String → Bool) (mk : Nat → Except BtError Device)
      (evs : List BtEvent),
      (∀ p d, BtEvent.present p ∈ evs → mk p = .ok d → f d.address d.name = false) →
      scanDiscovery f mk evs = none) := by
  refine ⟨?_, ?_, ?_, ?_, ?_⟩
  · intro f mk p rest
    simp [scanDiscovery]
  · intro f mk p e rest he
    simp [scanDiscovery, he]
  · intro f mk p d rest hd hm
    simp [scanDiscovery, hd, hm]
  · intro f mk p d rest hd hm
    simp [scanDiscovery, hd, hm]
  · intro f mk evs hnone
    induction evs with
    | nil => simp [scanDiscovery]
    | cons ev rest ih =>
      have ih' := ih (fun p d hm => hnone p d (by simp [hm]))
      cases ev with
      | removed p => simpa [scanDiscovery] using ih'
      | present p =>
        cases hmk : mk p with
        | error e => simpa [scanDiscovery, hmk] using ih'
        | ok d =>
          have hf := hnone p d (by simp) hmk
          simpa [scanDiscovery, hmk, hf] using ih'

/-- Witness for C7: a stream with one non-matching present event, one
removed event, one failing-handle event, then the matching event, selects
the matching device; an all-removed stream selects nothing. -/
theorem discoveryScan_event_processing_witness :
    scanDiscovery matchBeta regThree.newDevice1 [.present 2, .removed 9, .present 1] =
      some devBeta ∧
    scanDiscovery matchBeta regThree.newDevice1 [.removed 0, .removed 1] = none := by
  constructor
  · have h2 := discoveryScan_event_processing.2.2.2.1 matchBeta regThree.newDevice1
      2 devGamma [.removed 9, .present 1] rfl rfl
    have h9 := discoveryScan_event_processing.1 matchBeta regThree.newDevice1
      9 [.present 1]
    have h1 := discoveryScan_event_processing.2.2.1 matchBeta regThree.newDevice1
      1 devBeta [] rfl rfl
    rw [h2, h9, h1]
  · exact discoveryScan_event_processing.2.2.2.2 matchBeta regThree.newDevice1
      [.removed 0, .removed 1] (fun p d hm => by simp at hm)

/-- C8: on every exit path of `tryDiscoveryConnect` that follows a
successful discovery-session start — a match found, or the event stream
closed without one — the session's cancellation handle (deferred right
after the start) is invoked exactly once. -/
theorem discovery_cancel_exactly_once (f : String → String → Bool)
    (reg : Registry) (evs : List BtEvent) (hd : reg.discover = .ok evs) :
    (tryDiscoveryConnect f reg).started = true ∧
    (tryDiscoveryConnect f reg).cancelCalls = 1 := by
  unfold tryDiscoveryConnect
  rw [hd]
  dsimp only
  split <;> exact ⟨rfl, rfl⟩

/-- Witness for C8: both post-start exit paths at the fixture registry —
the match-found path and the stream-closed-without-match path. -/
theorem discovery_cancel_exactly_once_witness :
    (tryDiscoveryConnect matchBeta regThree).started = true ∧
    (tryDiscoveryConnect matchBeta regThree).cancelCalls = 1 :=
  discovery_cancel_exactly_once matchBeta regThree [] rfl

/-- Helper: a nonempty string has positive length. -/
theorem string_length_pos_of_ne_empty (s : String) (h : s ≠ "") : s.length ≠ 0 := by
  intro hlen
  cases hs : s with
  | mk l =>
    cases l with
    | nil => exact h (by rw [hs])
    | cons a as => rw [hs] at hlen; simp [String.length] at hlen

/-- C9: with the address criterion unset, a name pattern that the
regular-expression compiler rejects makes `SearchAndConnect` fail with the
wrapped compile error before any scan begins — for every registry, nothing
is scanned, no discovery starts and no retry loop is launched; when the
pattern compiles, the built predicate holds on a candidate iff the compiled
matcher accepts the candidate's name, the address being ignored. -/
theorem namePattern_validation_and_predicate :
    (∀ (compile : String → Option (String → Bool)) (reg : Registry)
      (cfg : SearchTargetConfig),
      cfg.DeviceAddress = "" → cfg.DeviceRegex ≠ "" →
      compile cfg.DeviceRegex = none →
      (SearchAndConnect compile reg cfg).syncErr =
        some (.wrap "error compiling regular expression"
          (.regexNotCompilable cfg.DeviceRegex)) ∧
      (SearchAndConnect compile reg cfg).discoveryStarted = false ∧
      (SearchAndConnect compile reg cfg).retryLoops = 0 ∧
      (SearchAndConnect compile reg cfg).selected = none) ∧
    (∀ (compile : String → Option (String → Bool)) (cfg : SearchTargetConfig)
      (m : String → Bool) (addr name : String),
      cfg.DeviceAddress = "" → cfg.DeviceRegex ≠ "" →
      compile cfg.DeviceRegex = some m →
      applyPred (buildMatchFunc compile cfg) addr name = some (m name)) := by
  constructor
  · intro compile reg cfg ha hr hcmp
    have hb : buildMatchFunc compile cfg =
        .error (.wrap "error compiling regular expression"
          (.regexNotCompilable cfg.DeviceRegex)) := by
      unfold buildMatchFunc
      simp [ha, string_length_pos_of_ne_empty cfg.DeviceRegex hr, hcmp]
    unfold SearchAndConnect
    rw [hb]
    exact ⟨rfl, rfl, rfl, rfl⟩
  · intro compile cfg m addr name ha hr hcmp
    unfold buildMatchFunc applyPred
    simp [ha, string_length_pos_of_ne_empty cfg.DeviceRegex hr, hcmp]

/-- Witness for C9: an uncompilable pattern (the empty-name matcher oracle
rejects the empty pattern is not used here; `compileNone` rejects "beta")
fails before any scan; the same pattern under `compileExact` yields the
name matcher. -/
theorem namePattern_validation_and_predicate_witness :
    ((SearchAndConnect compileNone regThree cfgName).syncErr =
        some (.wrap "error compiling regular expression"
          (.regexNotCompilable "beta")) ∧
      (SearchAndConnect compileNone regThree cfgName).discoveryStarted = false ∧
      (SearchAndConnect compileNone regThree cfgName).retryLoops = 0 ∧
      (SearchAndConnect compileNone regThree cfgName).selected = none) ∧
    applyPred (buildMatchFunc compileExact cfgName) "AA:BB:CC:DD:EE:02" "beta" =
      some true := by
  constructor
  · exact namePattern_validation_and_predicate.1 compileNone regThree cfgName
      rfl (by simp [cfgName]) rfl
  · have h := namePattern_validation_and_predicate.2 compileExact cfgName
      (fun name => name == "beta") "AA:BB:CC:DD:EE:02" "beta"
      rfl (by simp [cfgName]) rfl
    simpa using h

/-- C10: when listing the cached devices fails with a registry error,
`SearchAndConnect` synchronously returns the doubly-wrapped non-nil error,
no discovery session is started, no retry loop is launched, and the
candidate slot stays empty. -/
theorem searchAndConnect_cacheListFailure_sync_error
    (compile : String → Option (String → Bool)) (reg : Registry)
    (cfg : SearchTargetConfig) (f : String → String → Bool)
    (cfg' : SearchTargetConfig) (code : Nat)
    (hb : buildMatchFunc compile cfg = .ok (f, cfg'))
    (hg : reg.getDevices = .error (.external code)) :
    (SearchAndConnect compile reg cfg).syncErr =
      some (.wrap "error attempting connection through device cache"
        (.wrap "error getting device cache list" (.external code))) ∧
    (SearchAndConnect compile reg cfg).discoveryStarted = false ∧
    (SearchAndConnect compile reg cfg).retryLoops = 0 ∧
    (SearchAndConnect compile reg cfg).selected = none := by
  have hc : tryCacheConnect f reg =
      .error (.wrap "error getting device cache list" (.external code)) := by
    unfold tryCacheConnect
    rw [hg]
  unfold SearchAndConnect
  rw [hb]
  dsimp only
  rw [hc]
  simp [errorsIs]

/-- Witness for C10 at the fixture registry whose cache listing fails. -/
theorem searchAndConnect_cacheListFailure_sync_error_witness :
    (SearchAndConnect compileNone regListFail cfgAddr).syncErr =
      some (.wrap "error attempting connection through device cache"
        (.wrap "error getting device cache list" (.external 9))) ∧
    (SearchAndConnect compileNone regListFail cfgAddr).discoveryStarted = false ∧
    (SearchAndConnect compileNone regListFail cfgAddr).retryLoops = 0 ∧
    (SearchAndConnect compileNone regListFail cfgAddr).selected = none :=
  searchAndConnect_cacheListFailure_sync_error compileNone regListFail cfgAddr
    (fun mac _ => mac == "AA:BB:CC:DD:EE:FF") cfgAddr 9 rfl rfl

end Bluetooth
